import Mathlib

/-!
# Verification of `folly/experimental/coro/AwaitWrapper.h`

A shallow embedding of folly's `AwaitWrapper` — an executor-rescheduling
suspension adapter for C++ coroutines — together with proofs of its
specified properties.

The embedding models:

* coroutine handles (`Handle`): opaque resumption points; the caller's
  continuation handles are `Handle.ext`, trampoline-frame handles are
  `Handle.tramp`, and `Handle.null` models a default-constructed
  `std::experimental::coroutine_handle<>`;
* awaiters (`Awaiter`): the three-operation suspend protocol
  `await_ready` / `await_suspend` / `await_resume` of a wrapped awaitable,
  with `await_suspend` returning void, a bool, or another handle
  (`SuspendResult`) and `await_resume` returning a value or raising
  (`Except String V`);
* the awaiter storage mode (`Wrapper`): the `Wrapper` type alias in
  `createAwaitWrapper` — either the awaiter by value or a
  `std::reference_wrapper` into a heap of awaiters, resolved by `getRef`;
* the trampoline coroutine frame (`Frame`): the frame produced by
  `AwaitWrapper::awaitWrapper()`, holding the `promise_type` state
  (`executor_`, `awaiter_`) and its coroutine position (`FramePC`): it is
  created suspended at `initial_suspend` (`suspend_always`), runs its empty
  body when resumed, and at `final_suspend` posts the stored continuation to
  the executor (`Frame.resume`);
* `folly::Optional` (`Optional`): including C++ move semantics — after the
  contained value is moved from, the optional stays engaged but the value no
  longer owns its resources;
* a small world state (`World`) tracking allocated (live) trampoline frames
  and the sequence of handles posted to the executor via `Executor::add`,
  so that lifetime and ordering properties can be stated;
* the compile-time awaiter-acquisition dispatch of `get_awaiter`
  (`AwaitableTy`, `selectStrategy`, `get_awaiter`): a type descriptor
  records whether a member / free `operator co_await` is invocable and what
  each yields, mirroring `has_member_operator_co_await_v` and
  `has_non_member_operator_co_await_v`.

All definitions follow the source file; dereferencing an empty optional
(undefined behaviour in C++) is modelled by returning `Option.none` from the
adapter operations.
-/

set_option autoImplicit false

namespace FollyCoro

/-- A coroutine handle: an opaque resumption point. `ext n` is a caller
continuation handle, `tramp fid` is the handle of the trampoline frame with
id `fid` (what `coroutine_handle<promise_type>::from_promise` yields), and
`null` is a default-constructed empty handle. -/
inductive Handle where
  | null : Handle
  | ext : Nat → Handle
  | tramp : Nat → Handle
deriving DecidableEq, Repr

/-- The possible results of an awaiter's `await_suspend`: `void`, `bool`, or
another coroutine handle (symmetric transfer). -/
inductive SuspendResult where
  | retVoid : SuspendResult
  | retBool : Bool → SuspendResult
  | retHandle : Handle → SuspendResult
deriving DecidableEq, Repr

/-- A wrapped awaiter: the object implementing the suspend protocol.
`readyFn` is what its `await_ready` returns, `suspendFn` maps the handle
passed to `await_suspend` to that call's result, and `resumeFn` is what its
`await_resume` produces (`Except.error` models a thrown exception). -/
structure Awaiter (V : Type) where
  readyFn : Bool
  suspendFn : Handle → SuspendResult
  resumeFn : Except String V

/-- The `Wrapper` type alias of `createAwaitWrapper`: the awaiter is stored
by value when `get_awaiter` yields a prvalue, and as a
`std::reference_wrapper` (an index into the awaiter heap) when it yields a
reference. -/
inductive Wrapper (V : Type) where
  | value : Awaiter V → Wrapper V
  | refWrap : Nat → Wrapper V

/-- `detail::getRef`: the identity on a stored awaiter value, and `t.get()`
(a heap lookup) on a `std::reference_wrapper`. -/
def getRef {V : Type} (heap : Nat → Awaiter V) : Wrapper V → Awaiter V
  | Wrapper.value a => a
  | Wrapper.refWrap ix => heap ix

/-- The data members of `AwaitWrapper::promise_type`: the executor pointer
(an executor id) and the stored continuation handle `awaiter_`
(default-constructed to a null handle). -/
structure promise_type where
  executor_ : Nat
  awaiter_ : Handle
deriving DecidableEq, Repr

/-- Position of the trampoline coroutine: suspended at `initial_suspend`
(body not yet run) or suspended at `final_suspend` (body has run and the
continuation has been posted). -/
inductive FramePC where
  | atInitialSuspend : FramePC
  | atFinalSuspend : FramePC
deriving DecidableEq, Repr

/-- A trampoline coroutine frame: its identity `fid` (which
`coroutine_handle<promise_type>::from_promise` names as `Handle.tramp fid`),
its promise state, and its coroutine position. -/
structure Frame where
  fid : Nat
  promise : promise_type
  pc : FramePC
deriving DecidableEq, Repr

/-- `folly::Optional` with C++ move semantics made explicit: `vacant` is an
empty optional, `engaged a` holds `a` and owns its resources, and
`movedFrom a` is still engaged (as after `std::move`) but its contents no
longer own any resources. -/
inductive Optional (A : Type) where
  | vacant : Optional A
  | engaged : A → Optional A
  | movedFrom : A → Optional A

/-- Dereferencing (`operator*`) an optional: `none` models the undefined
behaviour of dereferencing an empty one. -/
def Optional.deref {A : Type} : Optional A → Option A
  | Optional.vacant => none
  | Optional.engaged a => some a
  | Optional.movedFrom a => some a

/-- Move construction from an optional: the pair (value moved into the
destination, state the source is left in). An engaged source stays engaged
but its contents become moved-from. -/
def Optional.moveFrom {A : Type} : Optional A → Optional A × Optional A
  | Optional.vacant => (Optional.vacant, Optional.vacant)
  | Optional.engaged a => (Optional.engaged a, Optional.movedFrom a)
  | Optional.movedFrom a => (Optional.movedFrom a, Optional.movedFrom a)

/-- Whether destroying this optional releases resources of a contained
value: only an engaged, not-moved-from optional owns anything. -/
def Optional.releasesResource {A : Type} : Optional A → Bool
  | Optional.engaged _ => true
  | _ => false

/-- Bookkeeping for the statements of lifetime and ordering properties:
the next fresh frame id, the ids of allocated and not yet destroyed
trampoline frames, and the sequence of handles posted to the executor via
`Executor::add`. -/
structure World where
  nextFid : Nat
  liveFrames : List Nat
  execLog : List Handle
deriving DecidableEq, Repr

/-- The adapter `detail::AwaitWrapper<Wrapper>`: a pointer to the trampoline
frame's promise (`none` on the no-executor path) and the
`Optional<Wrapper> awaitable_` slot. -/
structure AwaitWrapper (V : Type) where
  promise_ : Option Frame
  awaitable_ : Optional (Wrapper V)

/-- `AwaitWrapper::create(Awaitable&&)` — the no-executor path: store the
awaiter, create no trampoline frame. -/
def AwaitWrapper.create {V : Type} (awaitable : Wrapper V) : AwaitWrapper V :=
  { promise_ := none, awaitable_ := Optional.engaged awaitable }

/-- `AwaitWrapper::awaitWrapper()` — the trampoline coroutine. Because
`initial_suspend` is `suspend_always`, the frame is allocated suspended at
its initial suspend point with the body not yet run; its promise holds a
default (null) continuation handle. The executor pointer is set by the
caller (`create`). -/
def AwaitWrapper.awaitWrapper (V : Type) (w : World) : AwaitWrapper V × World :=
  let f : Frame :=
    { fid := w.nextFid
      promise := { executor_ := 0, awaiter_ := Handle.null }
      pc := FramePC.atInitialSuspend }
  ({ promise_ := some f, awaitable_ := Optional.vacant },
   { w with nextFid := w.nextFid + 1, liveFrames := w.nextFid :: w.liveFrames })

/-- `AwaitWrapper::create(Awaitable&&, Executor*)` — the executor path:
obtain a trampoline frame from `awaitWrapper()`, emplace the awaiter, and
record the executor in the frame's promise. -/
def AwaitWrapper.createWithExecutor {V : Type} (awaitable : Wrapper V)
    (executor : Nat) (w : World) : AwaitWrapper V × World :=
  let rw := AwaitWrapper.awaitWrapper V w
  match rw.1.promise_ with
  | some f =>
      let f2 := { f with promise := { f.promise with executor_ := executor } }
      ({ promise_ := some f2, awaitable_ := Optional.engaged awaitable }, rw.2)
  | none =>
      ({ rw.1 with awaitable_ := Optional.engaged awaitable }, rw.2)

/-- `AwaitWrapper::await_ready`: delegate to `getRef(*awaitable_).await_ready()`. -/
def AwaitWrapper.await_ready {V : Type} (heap : Nat → Awaiter V)
    (w : AwaitWrapper V) : Option Bool :=
  (Optional.deref w.awaitable_).map (fun x => (getRef heap x).readyFn)

/-- `AwaitWrapper::await_suspend`: if a trampoline frame exists, store the
caller's continuation in its promise and pass the trampoline's own handle to
the wrapped awaiter's `await_suspend`; otherwise pass the caller's handle
through unchanged. Returns the updated adapter and the wrapped awaiter's
result. -/
def AwaitWrapper.await_suspend {V : Type} (heap : Nat → Awaiter V)
    (w : AwaitWrapper V) (awaiter : Handle) :
    Option (AwaitWrapper V × SuspendResult) :=
  (Optional.deref w.awaitable_).map (fun x =>
    match w.promise_ with
    | some f =>
        let f2 := { f with promise := { f.promise with awaiter_ := awaiter } }
        ({ w with promise_ := some f2 },
         (getRef heap x).suspendFn (Handle.tramp f.fid))
    | none => (w, (getRef heap x).suspendFn awaiter))

/-- `AwaitWrapper::await_resume`: delegate to `getRef(*awaitable_).await_resume()`. -/
def AwaitWrapper.await_resume {V : Type} (heap : Nat → Awaiter V)
    (w : AwaitWrapper V) : Option (Except String V) :=
  (Optional.deref w.awaitable_).map (fun x => (getRef heap x).resumeFn)

/-- `AwaitWrapper::~AwaitWrapper`: if a trampoline frame is owned, destroy
it (remove it from the live frames). The executor log is untouched. -/
def AwaitWrapper.destructor {V : Type} (w : AwaitWrapper V) (world : World) :
    World :=
  match w.promise_ with
  | some f => { world with liveFrames := world.liveFrames.erase f.fid }
  | none => world

/-- `AwaitWrapper(AwaitWrapper&& other)`: the move constructor. The new
object takes the promise pointer (`std::exchange(other.promise_, nullptr)`)
and move-constructs its `awaitable_` from the source's. Returns the pair
(new object, moved-from source). -/
def AwaitWrapper.moveConstruct {V : Type} (other : AwaitWrapper V) :
    AwaitWrapper V × AwaitWrapper V :=
  let mv := Optional.moveFrom other.awaitable_
  ({ promise_ := other.promise_, awaitable_ := mv.1 },
   { promise_ := none, awaitable_ := mv.2 })

/-- The possible outcomes of resuming the trampoline frame: normal
progression (new frame state and executor log), or fatal process
termination with a diagnostic. -/
inductive ResumeOutcome where
  | normal : Frame → List Handle → ResumeOutcome
  | fatalExit : String → ResumeOutcome
deriving DecidableEq, Repr

/-- `promise_type::unhandled_exception`: `LOG(FATAL)` with the diagnostic,
terminating the process. -/
def promise_type.unhandled_exception (msg : String) : ResumeOutcome :=
  ResumeOutcome.fatalExit
    ("Failed to schedule a task to awake a coroutine: " ++ msg)

/-- Resuming the trampoline (the wrapped operation signalling completion).
From the initial suspend point the empty body runs, `final_suspend`'s
`FinalAwaiter.await_suspend` posts the stored continuation to the executor
(`p.executor_->add(p.awaiter_)`), and the frame stays suspended at the
final suspend point. `addResult` is the outcome of the `add` call; a raised
error goes to the fatal diagnostic path. A frame already at its final
suspend point has no remaining code to run, so a re-delivered completion
signal does nothing. -/
def Frame.resume (f : Frame) (log : List Handle)
    (addResult : Except String Unit) : ResumeOutcome :=
  match f.pc with
  | FramePC.atInitialSuspend =>
      match addResult with
      | Except.ok _ =>
          ResumeOutcome.normal { f with pc := FramePC.atFinalSuspend }
            (log ++ [f.promise.awaiter_])
      | Except.error m => promise_type.unhandled_exception m
  | FramePC.atFinalSuspend => ResumeOutcome.normal f log

/-- `Frame.resume` with a successful `add`, as a total state transformer. -/
def Frame.resumeOk (f : Frame) (log : List Handle) : Frame × List Handle :=
  match f.resume log (Except.ok ()) with
  | ResumeOutcome.normal f2 l2 => (f2, l2)
  | ResumeOutcome.fatalExit _ => (f, log)

/-- Deliver `n` completion signals to the trampoline frame in sequence. -/
def signalN : Nat → Frame → List Handle → Frame × List Handle
  | 0, f, log => (f, log)
  | Nat.succ n, f, log => signalN n (Frame.resumeOk f log).1 (Frame.resumeOk f log).2

/-- The executor log after the full executor-mode scenario: create the
adapter with an executor, suspend on it with continuation `h`, then let the
wrapped operation deliver `n` completion signals to the trampoline. -/
def executorTrace {V : Type} (a : Awaiter V) (executor : Nat)
    (heap : Nat → Awaiter V) (h : Handle) (n : Nat) (w0 : World) :
    List Handle :=
  let cr := AwaitWrapper.createWithExecutor (Wrapper.value a) executor w0
  match AwaitWrapper.await_suspend heap cr.1 h with
  | some pr =>
      match pr.1.promise_ with
      | some f => (signalN n f cr.2.execLog).2
      | none => cr.2.execLog
  | none => cr.2.execLog

/-- One complete await of a bare awaiter: the number of actual suspensions
(control transfers away from the awaiting coroutine) and the delivered
result. `await_ready` true, and `await_suspend` returning `false`, mean the
awaiting coroutine is not (or not observably) suspended. -/
def awaitAwaiter {V : Type} (a : Awaiter V) (h : Handle) :
    Nat × Except String V :=
  if a.readyFn then (0, a.resumeFn)
  else
    match a.suspendFn h with
    | SuspendResult.retBool false => (0, a.resumeFn)
    | _ => (1, a.resumeFn)

/-- One complete await of the adapter, driving its three operations the same
way the compiler drives any awaiter. -/
def awaitAdapter {V : Type} (heap : Nat → Awaiter V) (w : AwaitWrapper V)
    (h : Handle) : Option (Nat × Except String V) :=
  match AwaitWrapper.await_ready heap w with
  | none => none
  | some true => (AwaitWrapper.await_resume heap w).map (fun r => (0, r))
  | some false =>
      match AwaitWrapper.await_suspend heap w h with
      | none => none
      | some pr =>
          match AwaitWrapper.await_resume heap pr.1 with
          | none => none
          | some r =>
              match pr.2 with
              | SuspendResult.retBool false => some (0, r)
              | _ => some (1, r)

/-- A compile-time descriptor of a candidate awaitable type over an abstract
carrier `α` of possible awaiter objects: the candidate value itself, the
result of its member `operator co_await` when that is invocable (`none`
otherwise), and likewise for a free `operator co_await`. -/
structure AwaitableTy (α : Type) where
  self : α
  memberCoAwait : Option α
  freeCoAwait : Option α

/-- `detail::has_member_operator_co_await_v`. -/
def has_member_operator_co_await_v {α : Type} (t : AwaitableTy α) : Bool :=
  t.memberCoAwait.isSome

/-- `detail::has_non_member_operator_co_await_v`. -/
def has_non_member_operator_co_await_v {α : Type} (t : AwaitableTy α) :
    Bool :=
  t.freeCoAwait.isSome

/-- The three awaiter-acquisition strategies of `get_awaiter`. -/
inductive Strategy where
  | memberOp : Strategy
  | freeOp : Strategy
  | identity : Strategy
deriving DecidableEq, Repr

/-- The `if constexpr` chain of `get_awaiter`, as a strategy selection. -/
def selectStrategy {α : Type} (t : AwaitableTy α) : Strategy :=
  if has_member_operator_co_await_v t then Strategy.memberOp
  else if has_non_member_operator_co_await_v t then Strategy.freeOp
  else Strategy.identity

/-- `get_awaiter`: invoke the member `operator co_await` when invocable,
else the free `operator co_await` when invocable, else return the value
itself unchanged. -/
def get_awaiter {α : Type} (t : AwaitableTy α) : α :=
  match t.memberCoAwait with
  | some a => a
  | none =>
      match t.freeCoAwait with
      | some a => a
      | none => t.self

/-- Whether a strategy "applies" to a candidate in the specification's
sense: the member conversion is invocable, the free conversion is invocable,
or the value itself exposes the suspend protocol (`isAwaiter`). -/
def strategyApplies {α : Type} (t : AwaitableTy α) (isAwaiter : α → Bool) :
    Strategy → Bool
  | Strategy.memberOp => has_member_operator_co_await_v t
  | Strategy.freeOp => has_non_member_operator_co_await_v t
  | Strategy.identity => isAwaiter t.self

/-- Whether wrapping the candidate in `AwaitWrapper` and awaiting it
type-checks: the object `get_awaiter` produced must expose the suspend
protocol, since the adapter calls `await_ready` / `await_suspend` /
`await_resume` on it. -/
def adapterUseCompiles {α : Type} (t : AwaitableTy α)
    (isAwaiter : α → Bool) : Bool :=
  isAwaiter (get_awaiter t)

/-- The awaiter type computed by `createAwaitWrapper`: `get_awaiter` yields
either a prvalue awaiter or a reference to an awaiter that lives elsewhere
(an index into the awaiter heap). -/
inductive AwaiterOrRef (V : Type) where
  | byValue : Awaiter V → AwaiterOrRef V
  | byRef : Nat → AwaiterOrRef V

/-- `createAwaitWrapper(Awaitable&&)` (no-executor overload): when the
awaiter type is a reference, store a `std::reference_wrapper`; otherwise
store the awaiter by value. -/
def createAwaitWrapper {V : Type} (r : AwaiterOrRef V) : AwaitWrapper V :=
  match r with
  | AwaiterOrRef.byValue a => AwaitWrapper.create (Wrapper.value a)
  | AwaiterOrRef.byRef ix => AwaitWrapper.create (Wrapper.refWrap ix)

/-- The trampoline frame as it stands right after `await_suspend` armed it:
executor recorded, the caller's continuation handle stored, body not yet
run. -/
def armedFrame (e : Nat) (h : Handle) (fid : Nat) : Frame :=
  { fid := fid
    promise := { executor_ := e, awaiter_ := h }
    pc := FramePC.atInitialSuspend }

/-! ## Concrete sample values, used by witness theorems -/

/-- A sample awaiter over `Nat`: not ready, suspends with a `void` result,
resumes with the value `7`. -/
def sampleAwaiter : Awaiter Nat :=
  { readyFn := false
    suspendFn := fun _ => SuspendResult.retVoid
    resumeFn := Except.ok 7 }

/-- A sample awaiter heap. -/
def sampleHeap : Nat → Awaiter Nat := fun _ => sampleAwaiter

/-- A sample initial world: no frames allocated, empty executor log. -/
def sampleWorld : World := { nextFid := 0, liveFrames := [], execLog := [] }

/-! ## Theorems -/

/-- C1: wrapping without an executor is a transparent passthrough. For the
adapter created by `create(awaitable)` (no executor), `await_ready` returns
exactly the wrapped awaiter's readiness, `await_suspend` passes the caller's
continuation handle unchanged to the wrapped awaiter and returns its result
unchanged (the adapter state is untouched), `await_resume` returns (or
rethrows) exactly the wrapped awaiter's result, and a complete await of the
adapter produces the same result with the same number of suspensions as
awaiting the wrapped awaiter directly. -/
theorem c1_transparent_passthrough (V : Type) (a : Awaiter V)
    (heap : Nat → Awaiter V) (h : Handle) :
    AwaitWrapper.await_ready heap (AwaitWrapper.create (Wrapper.value a)) =
      some a.readyFn ∧
    AwaitWrapper.await_suspend heap (AwaitWrapper.create (Wrapper.value a)) h =
      some (AwaitWrapper.create (Wrapper.value a), a.suspendFn h) ∧
    AwaitWrapper.await_resume heap (AwaitWrapper.create (Wrapper.value a)) =
      some a.resumeFn ∧
    awaitAdapter heap (AwaitWrapper.create (Wrapper.value a)) h =
      some (awaitAwaiter a h) := by
  obtain ⟨r, s, m⟩ := a
  refine ⟨rfl, rfl, rfl, ?_⟩
  cases r
  · simp only [awaitAdapter, awaitAwaiter, AwaitWrapper.await_ready,
      AwaitWrapper.await_suspend, AwaitWrapper.await_resume,
      AwaitWrapper.create, Optional.deref, getRef, Option.map]
    cases hs : s h
    · simp [hs]
    · case _ b => cases b <;> simp [hs]
    · simp [hs]
  · rfl

/-- C2: in executor mode, `await_suspend(continuation)` stores the caller's
continuation handle in the trampoline frame's promise, invokes the wrapped
awaiter's `await_suspend` with the trampoline coroutine's handle (which is
never a caller continuation handle), and returns the wrapped awaiter's
result unchanged. -/
theorem c2_executor_suspend_arms_trampoline (V : Type) (a : Awaiter V)
    (heap : Nat → Awaiter V) (h : Handle) (e : Nat) (w : World) :
    (AwaitWrapper.await_suspend heap
        (AwaitWrapper.createWithExecutor (Wrapper.value a) e w).1 h).map
      Prod.snd = some (a.suspendFn (Handle.tramp w.nextFid)) ∧
    (AwaitWrapper.await_suspend heap
        (AwaitWrapper.createWithExecutor (Wrapper.value a) e w).1 h).map
      (fun pr => pr.1.promise_.map (fun f => f.promise.awaiter_)) =
      some (some h) ∧
    (AwaitWrapper.await_suspend heap
        (AwaitWrapper.createWithExecutor (Wrapper.value a) e w).1 h).map
      (fun pr => pr.1.promise_.map (fun f => f.fid)) =
      some (some w.nextFid) ∧
    (∀ cid : Nat, Handle.tramp w.nextFid ≠ Handle.ext cid) := by
  refine ⟨rfl, rfl, rfl, fun cid => ?_⟩
  intro hcontra
  cases hcontra

/-- C2 witness: the theorem instantiated at concrete inputs. -/
theorem c2_witness :
    (AwaitWrapper.await_suspend sampleHeap
        (AwaitWrapper.createWithExecutor (Wrapper.value sampleAwaiter) 0
          sampleWorld).1 (Handle.ext 5)).map Prod.snd =
      some (sampleAwaiter.suspendFn (Handle.tramp 0)) :=
  (c2_executor_suspend_arms_trampoline Nat sampleAwaiter sampleHeap
    (Handle.ext 5) 0 sampleWorld).1

/-- C4: the adapter's `await_resume` is a pure delegation: it produces
exactly the wrapped awaiter's result, propagating a raised error unchanged
and returning the value unchanged when no error is raised. -/
theorem c4_resume_propagates_unchanged (V : Type) (heap : Nat → Awaiter V)
    (w : AwaitWrapper V) (x : Wrapper V)
    (hx : Optional.deref w.awaitable_ = some x) :
    AwaitWrapper.await_resume heap w = some (getRef heap x).resumeFn ∧
    (∀ e : String, (getRef heap x).resumeFn = Except.error e →
      AwaitWrapper.await_resume heap w = some (Except.error e)) ∧
    (∀ v : V, (getRef heap x).resumeFn = Except.ok v →
      AwaitWrapper.await_resume heap w = some (Except.ok v)) := by
  have h1 : AwaitWrapper.await_resume heap w = some (getRef heap x).resumeFn := by
    unfold AwaitWrapper.await_resume
    rw [hx]
    rfl
  exact ⟨h1, fun e he => by rw [h1, he], fun v hv => by rw [h1, hv]⟩

/-- C4 witness: the theorem instantiated at a concrete adapter whose wrapped
awaiter resumes with the value `7`. -/
theorem c4_witness :
    AwaitWrapper.await_resume sampleHeap
      (AwaitWrapper.create (Wrapper.value sampleAwaiter)) =
      some (Except.ok 7) :=
  (c4_resume_propagates_unchanged Nat sampleHeap
    (AwaitWrapper.create (Wrapper.value sampleAwaiter))
    (Wrapper.value sampleAwaiter) rfl).1

/-- C6: when the awaitable's `operator co_await` conversion yields a
reference, `createAwaitWrapper` stores a non-owning reference wrapper (no
copy of the awaiter is stored), the adapter's three operations read the
original referenced awaiter, and a mutation of the referenced awaiter
performed after construction is visible to the adapter's operations. -/
theorem c6_reference_preservation (V : Type) (ix : Nat)
    (heap : Nat → Awaiter V) (h : Handle) (b : Awaiter V) :
    (createAwaitWrapper (AwaiterOrRef.byRef ix) : AwaitWrapper V).awaitable_ =
      Optional.engaged (Wrapper.refWrap ix) ∧
    AwaitWrapper.await_ready heap (createAwaitWrapper (AwaiterOrRef.byRef ix)) =
      some (heap ix).readyFn ∧
    AwaitWrapper.await_suspend heap
        (createAwaitWrapper (AwaiterOrRef.byRef ix)) h =
      some (createAwaitWrapper (AwaiterOrRef.byRef ix), (heap ix).suspendFn h) ∧
    AwaitWrapper.await_resume heap
        (createAwaitWrapper (AwaiterOrRef.byRef ix)) =
      some (heap ix).resumeFn ∧
    AwaitWrapper.await_ready (Function.update heap ix b)
        (createAwaitWrapper (AwaiterOrRef.byRef ix)) =
      some b.readyFn ∧
    AwaitWrapper.await_resume (Function.update heap ix b)
        (createAwaitWrapper (AwaiterOrRef.byRef ix)) =
      some b.resumeFn := by
  refine ⟨rfl, rfl, rfl, rfl, ?_, ?_⟩ <;>
    simp [AwaitWrapper.await_ready, AwaitWrapper.await_resume,
      createAwaitWrapper, AwaitWrapper.create, Optional.deref, getRef,
      Function.update]

/-! ### Trampoline state-machine lemmas (shared helpers) -/

/-- A frame already at its final suspend point has no code left: a
completion signal does nothing. -/
theorem resumeOk_atFinal (f : Frame) (log : List Handle)
    (hf : f.pc = FramePC.atFinalSuspend) : Frame.resumeOk f log = (f, log) := by
  unfold Frame.resumeOk Frame.resume
  rw [hf]

/-- Resuming a frame at its initial suspend point runs the body, posts the
stored continuation, and leaves the frame at its final suspend point. -/
theorem resumeOk_atInitial (f : Frame) (log : List Handle)
    (hf : f.pc = FramePC.atInitialSuspend) :
    Frame.resumeOk f log =
      ({ f with pc := FramePC.atFinalSuspend }, log ++ [f.promise.awaiter_]) := by
  unfold Frame.resumeOk Frame.resume
  rw [hf]

/-- Signals delivered to a frame at its final suspend point change nothing. -/
theorem signalN_atFinal (n : Nat) (f : Frame) (log : List Handle)
    (hf : f.pc = FramePC.atFinalSuspend) : signalN n f log = (f, log) := by
  induction n with
  | zero => rfl
  | succ k ih =>
      rw [signalN, resumeOk_atFinal f log hf]
      exact ih

/-- Delivering any number of completion signals appends at most one entry
to the executor log. -/
theorem signalN_length_le (n : Nat) (f : Frame) (log : List Handle) :
    (signalN n f log).2.length ≤ log.length + 1 := by
  cases n with
  | zero => simp [signalN]
  | succ k =>
      cases hf : f.pc with
      | atInitialSuspend =>
          rw [signalN, resumeOk_atInitial f log hf,
            signalN_atFinal k _ _ rfl]
          simp
      | atFinalSuspend =>
          rw [signalN, resumeOk_atFinal f log hf,
            signalN_atFinal k f log hf]
          simp

/-- Delivering at least one completion signal to a frame at its initial
suspend point posts the stored continuation exactly once. -/
theorem signalN_posts_once (n : Nat) (f : Frame) (log : List Handle)
    (hf : f.pc = FramePC.atInitialSuspend) (hn : 1 ≤ n) :
    (signalN n f log).2 = log ++ [f.promise.awaiter_] := by
  cases n with
  | zero => exact absurd hn (by simp)
  | succ k =>
      rw [signalN, resumeOk_atInitial f log hf, signalN_atFinal k _ _ rfl]

/-- C3: in executor mode, the caller's continuation is posted to the
executor only after the wrapped operation has resumed the trampoline —
with no completion signal the executor log is untouched — it is posted at
most once over the adapter's lifetime even if the completion signal is
delivered more than once, and when it is posted, the posted handle is
exactly the caller's continuation. -/
theorem c3_post_after_completion_at_most_once (V : Type) (a : Awaiter V)
    (e : Nat) (heap : Nat → Awaiter V) (h : Handle) (w : World) :
    executorTrace a e heap h 0 w = w.execLog ∧
    (∀ n : Nat,
      (executorTrace a e heap h n w).length ≤ w.execLog.length + 1) ∧
    (∀ n : Nat, 1 ≤ n →
      executorTrace a e heap h n w = w.execLog ++ [h]) := by
  have key : ∀ n : Nat, executorTrace a e heap h n w =
      (signalN n (armedFrame e h w.nextFid) w.execLog).2 := fun _ => rfl
  refine ⟨key 0, fun n => ?_, fun n hn => ?_⟩
  · rw [key n]
    exact signalN_length_le n (armedFrame e h w.nextFid) w.execLog
  · rw [key n, signalN_posts_once n (armedFrame e h w.nextFid) w.execLog rfl hn]
    rfl

/-- C3 witness: the theorem instantiated at concrete inputs, with one
completion signal. -/
theorem c3_witness :
    executorTrace sampleAwaiter 0 sampleHeap (Handle.ext 5) 1 sampleWorld =
      sampleWorld.execLog ++ [Handle.ext 5] :=
  (c3_post_after_completion_at_most_once Nat sampleAwaiter 0 sampleHeap
    (Handle.ext 5) sampleWorld).2.2 1 (le_refl 1)

/-- C5: if posting the continuation to the executor raises an error while
the trampoline runs, the outcome is a fatal diagnostic terminating the
process; and every possible outcome of running the trampoline body either
posts the continuation or is fatal — the continuation is never silently
dropped or incorrectly resumed. -/
theorem c5_fatal_on_scheduling_failure (f : Frame) (log : List Handle)
    (m : String) (hf : f.pc = FramePC.atInitialSuspend) :
    Frame.resume f log (Except.error m) =
      ResumeOutcome.fatalExit
        ("Failed to schedule a task to awake a coroutine: " ++ m) ∧
    (∀ r : Except String Unit,
      Frame.resume f log r =
          ResumeOutcome.normal { f with pc := FramePC.atFinalSuspend }
            (log ++ [f.promise.awaiter_]) ∨
      ∃ msg : String, Frame.resume f log r = ResumeOutcome.fatalExit msg) := by
  constructor
  · unfold Frame.resume
    rw [hf]
    rfl
  · intro r
    cases r with
    | ok u =>
        left
        unfold Frame.resume
        rw [hf]
    | error m2 =>
        right
        refine ⟨"Failed to schedule a task to awake a coroutine: " ++ m2, ?_⟩
        unfold Frame.resume
        rw [hf]
        rfl

/-- C5 witness: the theorem instantiated at a concrete armed frame and a
concrete scheduling error. -/
theorem c5_witness :
    Frame.resume (armedFrame 0 (Handle.ext 5) 0) [] (Except.error "enqueue") =
      ResumeOutcome.fatalExit
        ("Failed to schedule a task to awake a coroutine: " ++ "enqueue") :=
  (c5_fatal_on_scheduling_failure (armedFrame 0 (Handle.ext 5) 0) []
    "enqueue" rfl).1

/-- C7: constructing an adapter and destroying it without ever suspending
on it releases all resources — in executor mode the eagerly created
trampoline frame is destroyed, restoring the live-frame set — and the
executor's `add` is never invoked (the executor log is unchanged); the
no-executor path touches nothing at all. -/
theorem c7_destroy_without_suspend_releases_all (V : Type) (x : Wrapper V)
    (e : Nat) (w : World) :
    (AwaitWrapper.destructor
        (AwaitWrapper.createWithExecutor x e w).1
        (AwaitWrapper.createWithExecutor x e w).2).liveFrames =
      w.liveFrames ∧
    (AwaitWrapper.destructor
        (AwaitWrapper.createWithExecutor x e w).1
        (AwaitWrapper.createWithExecutor x e w).2).execLog = w.execLog ∧
    AwaitWrapper.destructor (AwaitWrapper.create x) w = w := by
  refine ⟨?_, rfl, rfl⟩
  show (w.nextFid :: w.liveFrames).erase w.nextFid = w.liveFrames
  exact List.erase_cons_head w.nextFid w.liveFrames

/-- C8: move construction transfers ownership: the destination takes the
trampoline frame pointer and the awaiter, the moved-from source holds no
frame, destroying the source destroys no frame and releases no awaiter
resources, and the destination holds exactly the awaiter the source held. -/
theorem c8_move_transfers_ownership (V : Type) (w : AwaitWrapper V)
    (world : World) :
    (AwaitWrapper.moveConstruct w).1.promise_ = w.promise_ ∧
    (AwaitWrapper.moveConstruct w).2.promise_ = none ∧
    AwaitWrapper.destructor (AwaitWrapper.moveConstruct w).2 world = world ∧
    Optional.releasesResource (AwaitWrapper.moveConstruct w).2.awaitable_ =
      false ∧
    Optional.deref (AwaitWrapper.moveConstruct w).1.awaitable_ =
      Optional.deref w.awaitable_ := by
  have h4 : ∀ o : Optional (Wrapper V),
      Optional.releasesResource (Optional.moveFrom o).2 = false := by
    intro o
    cases o <;> rfl
  have h5 : ∀ o : Optional (Wrapper V),
      Optional.deref (Optional.moveFrom o).1 = Optional.deref o := by
    intro o
    cases o <;> rfl
  exact ⟨rfl, rfl, rfl, h4 w.awaitable_, h5 w.awaitable_⟩

/-- C9: the `if constexpr` chain of `get_awaiter` selects exactly one of
the three awaiter-acquisition strategies, characterized by the two
invocability traits; and when none of the three strategies applies (no
member conversion, no free conversion, and the value itself does not expose
the suspend protocol), wrapping the candidate and awaiting it fails to
type-check — there is no runtime error path. -/
theorem c9_exactly_one_strategy_else_ill_typed (α : Type)
    (t : AwaitableTy α) (isAwaiter : α → Bool) :
    ((selectStrategy t = Strategy.memberOp) ↔
      has_member_operator_co_await_v t = true) ∧
    ((selectStrategy t = Strategy.freeOp) ↔
      (has_member_operator_co_await_v t = false ∧
        has_non_member_operator_co_await_v t = true)) ∧
    ((selectStrategy t = Strategy.identity) ↔
      (has_member_operator_co_await_v t = false ∧
        has_non_member_operator_co_await_v t = false)) ∧
    ((∀ s : Strategy, strategyApplies t isAwaiter s = false) →
      adapterUseCompiles t isAwaiter = false) := by
  obtain ⟨x, mo, fo⟩ := t
  refine ⟨?_, ?_, ?_, ?_⟩
  · cases mo <;> cases fo <;>
      simp [selectStrategy, has_member_operator_co_await_v,
        has_non_member_operator_co_await_v]
  · cases mo <;> cases fo <;>
      simp [selectStrategy, has_member_operator_co_await_v,
        has_non_member_operator_co_await_v]
  · cases mo <;> cases fo <;>
      simp [selectStrategy, has_member_operator_co_await_v,
        has_non_member_operator_co_await_v]
  · intro hs
    cases mo with
    | some a0 =>
        exact absurd (hs Strategy.memberOp)
          (by simp [strategyApplies, has_member_operator_co_await_v])
    | none =>
        cases fo with
        | some a0 =>
            exact absurd (hs Strategy.freeOp)
              (by simp [strategyApplies, has_non_member_operator_co_await_v])
        | none =>
            simpa [adapterUseCompiles, get_awaiter, strategyApplies]
              using hs Strategy.identity

/-- C9 witness: a candidate with no member conversion, no free conversion,
and no suspend protocol of its own does not type-check when wrapped. -/
theorem c9_witness :
    adapterUseCompiles
      { self := 0, memberCoAwait := none, freeCoAwait := none }
      (fun _ : Nat => false) = false :=
  (c9_exactly_one_strategy_else_ill_typed Nat
    { self := 0, memberCoAwait := none, freeCoAwait := none }
    (fun _ => false)).2.2.2 (fun s => by cases s <;> rfl)

/-- C10: `get_awaiter` resolves its three strategies with a fixed priority:
a member `operator co_await` is preferred whenever invocable (even if a
free one also exists); otherwise a free `operator co_await` is used when
invocable; otherwise `get_awaiter` returns the value itself unchanged, so
it succeeds even for a type possessing neither conversion. -/
theorem c10_get_awaiter_priority (α : Type) (t : AwaitableTy α) :
    (∀ a : α, t.memberCoAwait = some a → get_awaiter t = a) ∧
    (∀ a : α, t.memberCoAwait = none → t.freeCoAwait = some a →
      get_awaiter t = a) ∧
    (t.memberCoAwait = none → t.freeCoAwait = none →
      get_awaiter t = t.self) := by
  refine ⟨fun a ha => ?_, fun a hm hf => ?_, fun hm hf => ?_⟩
  · unfold get_awaiter
    rw [ha]
  · unfold get_awaiter
    rw [hm, hf]
  · unfold get_awaiter
    rw [hm, hf]

/-- C10 witness: for a type possessing both conversions the member one is
invoked, and for a type possessing neither `get_awaiter` still succeeds. -/
theorem c10_witness :
    get_awaiter { self := 0, memberCoAwait := some 1, freeCoAwait := some 2 } = 1 ∧
    get_awaiter { self := 0, memberCoAwait := none, freeCoAwait := none } =
      (0 : Nat) :=
  ⟨(c10_get_awaiter_priority Nat
      { self := 0, memberCoAwait := some 1, freeCoAwait := some 2 }).1 1 rfl,
   (c10_get_awaiter_priority Nat
      { self := 0, memberCoAwait := none, freeCoAwait := none }).2.2 rfl rfl⟩

end FollyCoro
